import Mathlib

/-!
Verification of the auth-adapter gateway: header handling from
auth_service/auth_adapter/api/headers.py, and the token-exchange engine and
access gate as described by the design document.
-/

namespace AuthAdapter

/-- Check whether the first character list begins with the second one. -/
def charsStartWith : List Char → List Char → Bool
  | _, [] => true
  | [], _ :: _ => false
  | c :: cs, p :: ps => c = p && charsStartWith cs ps

/-- Check whether string s begins with string p, comparing character lists. -/
def strStartsWith (s p : String) : Bool :=
  charsStartWith s.data p.data

/-- Check whether string s ends with string p. -/
def strEndsWith (s p : String) : Bool :=
  charsStartWith s.data.reverse p.data.reverse

/-- Drop the first n characters of a string. -/
def strDrop (s : String) (n : Nat) : String :=
  String.mk (s.data.drop n)

/-- Drop the last character of a string. -/
def strDropLast (s : String) : String :=
  String.mk s.data.dropLast

/-- Remove a leading occurrence of p from s, as the Python str.removeprefix
method does: when s does not begin with p, s is returned unchanged. -/
def removeLeading (s p : String) : String :=
  if strStartsWith s p then strDrop s p.data.length else s

/-- Embedded from headers.py, function get_bearer_token: scan the given
optional header values and return the part after the first occurrence of the
literal scheme marker, or none when no value carries it. The Python truthiness
test on the header value is kept as the explicit nonemptiness test. -/
def get_bearer_token : List (Option String) → Option String
  | [] => none
  | header_value :: rest =>
    match header_value with
    | some v =>
      if v ≠ "" ∧ strStartsWith v "Bearer " = true then
        some (removeLeading v "Bearer ")
      else get_bearer_token rest
    | none => get_bearer_token rest

/-- A JSON value as produced by the adapter: a string, an integer, or null. -/
inductive JsonValue
  | str (s : String)
  | int (n : Int)
  | null
deriving DecidableEq, Repr

/-- Lowercase hexadecimal digit for a value below 16. -/
def hexDigit (n : Nat) : Char :=
  if n < 10 then Char.ofNat (48 + n) else Char.ofNat (87 + n)

/-- Escape one character the way the Python json.dumps function does with
ensure_ascii disabled: quotes, backslashes and control characters are escaped,
everything else is emitted verbatim. -/
def escapeChar (c : Char) : List Char :=
  if c = '"' then ['\\', '"']
  else if c = '\\' then ['\\', '\\']
  else if c = '\n' then ['\\', 'n']
  else if c = '\t' then ['\\', 't']
  else if c = '\r' then ['\\', 'r']
  else if c.toNat = 8 then ['\\', 'b']
  else if c.toNat = 12 then ['\\', 'f']
  else if c.toNat < 32 then
    ['\\', 'u', '0', '0', hexDigit (c.toNat / 16), hexDigit (c.toNat % 16)]
  else [c]

/-- Escape a whole string for JSON output. -/
def escapeString (s : String) : List Char :=
  s.data.flatMap escapeChar

/-- Decimal digit characters of an integer. -/
def intChars (n : Int) : List Char :=
  if n < 0 then '-' :: Nat.toDigits 10 n.natAbs else Nat.toDigits 10 n.natAbs

/-- Render one JSON value to characters. -/
def renderJsonValue : JsonValue → List Char
  | JsonValue.str s => '"' :: (escapeString s ++ ['"'])
  | JsonValue.int n => intChars n
  | JsonValue.null => ['n', 'u', 'l', 'l']

/-- Render the members of a JSON object with the compact separators used by
the adapter, a comma between members and a colon after each key. -/
def renderMembers : List (String × JsonValue) → List Char
  | [] => []
  | [(k, v)] => renderJsonValue (JsonValue.str k) ++ ':' :: renderJsonValue v
  | (k, v) :: rest =>
    renderJsonValue (JsonValue.str k) ++ ':' :: renderJsonValue v
      ++ ',' :: renderMembers rest

/-- Render a JSON object from its member list. -/
def renderJsonObject (members : List (String × JsonValue)) : String :=
  String.mk (Char.ofNat 123 :: (renderMembers members ++ [Char.ofNat 125]))

/-- Modelled from the spec: the session state enumeration of the session
store, whose module is not part of the provided sources. The spec names the
two states REGISTERED and AUTHENTICATED. -/
inductive SessionState
  | Registered
  | Authenticated
deriving DecidableEq, Repr

/-- Serialized value of a session state, mirroring the value attribute read
by the header serialization code. -/
def SessionState.value : SessionState → String
  | SessionState.Registered => "Registered"
  | SessionState.Authenticated => "Authenticated"

/-- Modelled from the spec: the session record of the session store, whose
module is not part of the provided sources. Field names follow the test
fixtures; timestamps are seconds. The TOTP secret is the totp_token field. -/
structure Session where
  session_id : String
  ext_id : String
  user_id : Option String
  user_name : String
  user_email : String
  user_title : Option String
  role : Option String
  csrf_token : String
  totp_token : Option String
  state : SessionState
  created : Nat
  last_used : Nat
deriving DecidableEq, Repr

/-- Embedded from headers.py, function session_to_header: the member list of
the serialized session dictionary, in insertion order. The Python truthiness
test on the title admits it only when it is set and nonempty, and the
expires member appears exactly when a callback is supplied. -/
def session_dict (session : Session) (expires : Option (Session → Int)) :
    List (String × JsonValue) :=
  [("userId", match session.user_id with
      | some i => JsonValue.str i
      | none => JsonValue.null),
   ("name", JsonValue.str session.user_name),
   ("email", JsonValue.str session.user_email),
   ("state", JsonValue.str session.state.value),
   ("csrf", JsonValue.str session.csrf_token)]
  ++ (match session.user_title with
      | some t => if t = "" then [] else [("title", JsonValue.str t)]
      | none => [])
  ++ (match expires with
      | some f => [("expires", JsonValue.int (f session))]
      | none => [])

/-- Embedded from headers.py, function session_to_header: serialize a session
to the response header value used by the frontend. -/
def session_to_header (session : Session) (expires : Option (Session → Int)) :
    String :=
  renderJsonObject (session_dict session expires)

/-- Modelled from the spec: the status of a registry user record; the
registry module is not part of the provided sources. The serialized values
follow the integration tests, active and inactive. -/
inductive UserStatus
  | active
  | inactive
deriving DecidableEq, Repr

/-- Serialized value of a user status. -/
def UserStatus.value : UserStatus → String
  | UserStatus.active => "active"
  | UserStatus.inactive => "inactive"

/-- Modelled from the spec: a registry user record as returned by the
lookup-by-external-id collaborator interface, together with the
status_change audit field checked by the integration tests. -/
structure User where
  id : String
  ext_id : String
  name : String
  email : String
  title : Option String
  status : UserStatus
  status_change : Option String
deriving DecidableEq, Repr

/-- Modelled from the spec: the identity snapshot returned by the external
identity provider userinfo operation. -/
structure UserInfo where
  sub : String
  name : String
  email : String
deriving DecidableEq, Repr

/-- Modelled from the spec: the registry collaborator state, a list of user
records looked up by external id and a claims table assigning roles to
internal user ids. -/
structure Registry where
  users : List User
  roles : List (String × String)
deriving DecidableEq, Repr

/-- Look up a registry user by external id. -/
def lookup_user (users : List User) (sub : String) : Option User :=
  users.find? (fun u => decide (u.ext_id = sub))

/-- Look up the granted role of a user id in the claims table. -/
def lookup_role (roles : List (String × String)) (uid : String) :
    Option String :=
  (roles.find? (fun r => decide (r.1 = uid))).map Prod.snd

/-- Modelled from the spec: the decision of the token exchange engine,
pass-through, rejection with a detail message, or a minted internal token
given by its claim set. -/
inductive Decision
  | passThrough
  | reject (detail : String)
  | exchanged (claims : List (String × JsonValue))
deriving DecidableEq, Repr

/-- Modelled from the spec: configuration of the exchange engine; the fixed
validity window of minted tokens in seconds. -/
structure ExchangeConfig where
  validity : Nat
deriving DecidableEq, Repr

/-- Modelled from the spec: the unregistered-identity token variant, carrying
only the external id, name and email from the identity provider plus the
issue and expiry timestamps. -/
def mint_unregistered (info : UserInfo) (now validity : Nat) :
    List (String × JsonValue) :=
  [("ext_id", JsonValue.str info.sub),
   ("name", JsonValue.str info.name),
   ("email", JsonValue.str info.email),
   ("iat", JsonValue.int now),
   ("exp", JsonValue.int (now + validity))]

/-- Modelled from the spec: the registered-identity token variant. Name and
email are the identity-provider-reported values; status is the stored status
when both match the stored record and the invalid sentinel otherwise; the
title is always present, possibly null; a role member appears exactly when a
role is granted. -/
def mint_registered (user : User) (info : UserInfo) (role : Option String)
    (now validity : Nat) : List (String × JsonValue) :=
  [("id", JsonValue.str user.id),
   ("name", JsonValue.str info.name),
   ("email", JsonValue.str info.email),
   ("status", JsonValue.str
     (if info.name = user.name ∧ info.email = user.email
      then user.status.value else "invalid")),
   ("title", match user.title with
     | some t => JsonValue.str t
     | none => JsonValue.null)]
  ++ (match role with
      | some r => [("role", JsonValue.str r)]
      | none => [])
  ++ [("iat", JsonValue.int now), ("exp", JsonValue.int (now + validity))]

/-- Modelled from the spec: the central token exchange algorithm. A bearer
token is extracted from the Authorization header with X-Authorization as
fallback; absence means pass-through, an identity provider failure means
rejection with the generic message, and otherwise the registry lookup decides
which token variant is minted. The registry is returned alongside the
decision; the algorithm never mutates it. -/
def token_exchange (cfg : ExchangeConfig) (idp : String → Option UserInfo)
    (registry : Registry) (authorization x_authorization : Option String)
    (now : Nat) : Decision × Registry :=
  match get_bearer_token [authorization, x_authorization] with
  | none => (Decision.passThrough, registry)
  | some token =>
    match idp token with
    | none => (Decision.reject "Invalid access token", registry)
    | some info =>
      match lookup_user registry.users info.sub with
      | none =>
        (Decision.exchanged (mint_unregistered info now cfg.validity),
          registry)
      | some user =>
        (Decision.exchanged
          (mint_registered user info (lookup_role registry.roles user.id)
            now cfg.validity),
          registry)

/-- Serialize a claim set; stands for the signed token payload. -/
def serialize_token (claims : List (String × JsonValue)) : String :=
  renderJsonObject claims

/-- Modelled from the spec: the outbound result of a decision. Pass-through
forwards with the Authorization header explicitly emptied; rejection is a 401
response with a detail message and no forwarded identity headers; a minted
token replaces the Authorization header, and X-Authorization is never
forwarded. -/
structure ForwardedHeaders where
  status : Nat
  detail : Option String
  authorization : Option String
  x_authorization : Option String
deriving DecidableEq, Repr

/-- Modelled from the spec: header rewrite for each decision. -/
def decision_headers : Decision → ForwardedHeaders
  | Decision.passThrough => ⟨200, none, some "", none⟩
  | Decision.reject detail => ⟨401, some detail, none, none⟩
  | Decision.exchanged claims =>
    ⟨200, none, some ("Bearer " ++ serialize_token claims), none⟩

/-- Value of a claim key inside a minted claim set. -/
def claim_value (claims : List (String × JsonValue)) (key : String) :
    Option JsonValue :=
  (claims.find? (fun c => decide (c.1 = key))).map Prod.snd

/-- The base64 alphabet in order. -/
def b64Alphabet : List Char :=
  "ABCDEFGHIJKLMNOPQRSTUVWXYZabcdefghijklmnopqrstuvwxyz0123456789+/".data

/-- Position of a character in a character list, if present. -/
def indexInAlphabet (c : Char) : List Char → Option Nat
  | [] => none
  | d :: ds => if d = c then some 0 else (indexInAlphabet c ds).map Nat.succ

/-- Decode a base64 character sequence into bytes, processing quartets and
accepting padding only at the end; malformed input yields none. -/
def b64DecodeChars : List Char → Option (List Nat)
  | [] => some []
  | c1 :: c2 :: c3 :: c4 :: rest =>
    match indexInAlphabet c1 b64Alphabet, indexInAlphabet c2 b64Alphabet with
    | some v1, some v2 =>
      if c3 = '=' then
        if c4 = '=' ∧ rest = [] then some [v1 * 4 + v2 / 16] else none
      else
        match indexInAlphabet c3 b64Alphabet with
        | some v3 =>
          if c4 = '=' then
            if rest = [] then
              some [v1 * 4 + v2 / 16, v2 % 16 * 16 + v3 / 4]
            else none
          else
            match indexInAlphabet c4 b64Alphabet, b64DecodeChars rest with
            | some v4, some tail =>
              some ((v1 * 4 + v2 / 16) :: (v2 % 16 * 16 + v3 / 4) ::
                (v3 % 4 * 64 + v4) :: tail)
            | _, _ => none
        | none => none
    | _, _ => none
  | _ => none

/-- Bytes of an ASCII string. -/
def strBytes (s : String) : List Nat :=
  s.data.map Char.toNat

/-- ASCII string built from bytes. -/
def bytesToStr (bs : List Nat) : String :=
  String.mk (bs.map Char.ofNat)

/-- HTTP request methods used by the gateway. -/
inductive Method
  | get
  | head
  | options
  | post
  | put
  | patch
  | delete
deriving DecidableEq, Repr

/-- Read-only methods, the ones admitted by the read allow-list. -/
def Method.is_safe : Method → Bool
  | Method.get => true
  | Method.head => true
  | Method.options => true
  | _ => false

/-- Modelled from the spec: configuration of the access gate, whose module is
not part of the provided sources. Basic authentication is enabled exactly
when a credential pair is configured; the allow-lists hold patterns where a
trailing star matches any suffix; the realm is a fixed string. -/
structure GateConfig where
  basic_auth_credentials : Option String
  allow_read_paths : List String
  allow_write_paths : List String
  realm : String

/-- Match one allow-list pattern against a request path: a pattern ending in
a star matches every path extending the part before the star, any other
pattern matches only the identical path. -/
def path_matches (pattern path : String) : Bool :=
  if strEndsWith pattern "*" then strStartsWith path (strDropLast pattern)
  else decide (path = pattern)

/-- Match a path against an allow-list. -/
def path_in_list (patterns : List String) (path : String) : Bool :=
  patterns.any (fun p => path_matches p path)

/-- Modelled from the spec: the decision of the access gate; allowing carries
the Authorization header to hand to the next stage, a consumed Basic
credential being stripped, and rejection carries the 401 detail message and
the challenge header value. -/
inductive GateDecision
  | allow (authorization : Option String)
  | reject (detail : String) (www_authenticate : String)
deriving DecidableEq, Repr

/-- The challenge header value with the fixed realm. -/
def basic_challenge (realm : String) : String :=
  "Basic realm=\"" ++ realm ++ "\""

/-- Test whether a header value carries the configured Basic credential
pair: the Basic scheme marker followed by a base64 encoding of the
credentials. -/
def valid_basic_credential (credentials : String)
    (authorization : Option String) : Bool :=
  match authorization with
  | some value =>
    strStartsWith value "Basic " &&
      (match b64DecodeChars (strDrop value 6).data with
       | some bytes => decide (bytesToStr bytes = credentials)
       | none => false)
  | none => false

/-- Modelled from the spec: the access gate. With no configured credentials
everything is allowed untouched. Otherwise write-allow-listed paths admit all
methods and read-allow-listed paths admit the read-only methods, in both
cases passing the client Authorization header through verbatim; every other
request needs the configured Basic credential, is allowed with the credential
stripped when it carries it, and is otherwise rejected with a 401 carrying
the challenge with the fixed realm, the detail distinguishing a missing from
an incorrect credential as in the integration tests. -/
def access_gate (cfg : GateConfig) (method : Method) (path : String)
    (authorization : Option String) : GateDecision :=
  match cfg.basic_auth_credentials with
  | none => GateDecision.allow authorization
  | some credentials =>
    if path_in_list cfg.allow_write_paths path then
      GateDecision.allow authorization
    else if path_in_list cfg.allow_read_paths path && method.is_safe then
      GateDecision.allow authorization
    else
      match authorization with
      | some value =>
        if strStartsWith value "Basic " then
          if valid_basic_credential credentials (some value) then
            GateDecision.allow none
          else
            GateDecision.reject (cfg.realm ++ ": Incorrect username or password")
              (basic_challenge cfg.realm)
        else
          GateDecision.reject (cfg.realm ++ ": Not authenticated")
            (basic_challenge cfg.realm)
      | none =>
        GateDecision.reject (cfg.realm ++ ": Not authenticated")
          (basic_challenge cfg.realm)

/-- Test whether an optional header value is a bearer value, that is, is
present and begins with the literal scheme marker. -/
def is_bearer_value : Option String → Bool
  | some v => strStartsWith v "Bearer "
  | none => false

/-- Sample session of a registered user without a TOTP secret. -/
def sampleSessionA : Session :=
  ⟨"sid1", "john@aai.org", some "john-internal-id", "John Doe",
    "john@home.org", none, none, "csrf123", none, SessionState.Registered,
    0, 0⟩

/-- Sample session agreeing with sampleSessionA on every client-visible field
but holding a TOTP secret and a different session id. -/
def sampleSessionB : Session :=
  { sampleSessionA with
    session_id := "sid2"
    totp_token := some "VERYSECRETBASE32" }

/-- Identity snapshot of the sample user as reported by the IdP. -/
def johnInfo : UserInfo :=
  ⟨"john@aai.org", "John Doe", "john@home.org"⟩

/-- Sample IdP client accepting exactly one access token. -/
def sampleIdp : String → Option UserInfo :=
  fun token => if token = "valid-token" then some johnInfo else none

/-- Sample registry record matching the sample identity snapshot. -/
def johnUser : User :=
  ⟨"john-internal-id", "john@aai.org", "John Doe", "john@home.org", none,
    UserStatus.active, none⟩

/-- Sample registry record of a titled data steward. -/
def stewardUser : User :=
  ⟨"james@ghga.de", "john@aai.org", "John Doe", "john@home.org", some "Dr.",
    UserStatus.active, none⟩

/-- Sample registry holding only the plain user and no role claims. -/
def sampleRegistry : Registry :=
  ⟨[johnUser], []⟩

/-- Sample registry holding the data steward and the role claim. -/
def stewardRegistry : Registry :=
  ⟨[stewardUser], [("james@ghga.de", "data_steward")]⟩

/-- Sample exchange configuration with a one hour validity window. -/
def sampleCfg : ExchangeConfig :=
  ⟨3600⟩

/-- Sample access gate configuration mirroring the integration tests. -/
def sampleGateCfg : GateConfig :=
  ⟨some "testuser:testpwd", ["/allowed/read/*", "/logo.png"],
    ["/allowed/write/*"], "GHGA Data Portal"⟩

/-- The length of the bearer scheme marker. -/
theorem bearer_marker_length : "Bearer ".data.length = 7 := rfl

/-- The empty string does not begin with the bearer scheme marker. -/
theorem empty_not_bearer : strStartsWith "" "Bearer " = false := rfl

/-- C9: get_bearer_token returns the remainder after the scheme marker of the
first header value beginning with the case-sensitive marker, skipping values
that are absent, empty, or of another scheme, and returns none when no value
begins with the marker. -/
theorem bearer_token_extraction_spec :
    (∀ vs : List (Option String),
      (∀ u ∈ vs, is_bearer_value u = false) → get_bearer_token vs = none) ∧
    (∀ (vs₁ vs₂ : List (Option String)) (v : String),
      (∀ u ∈ vs₁, is_bearer_value u = false) →
      strStartsWith v "Bearer " = true →
      get_bearer_token (vs₁ ++ some v :: vs₂) = some (strDrop v 7)) := by
  constructor
  · intro vs h
    induction vs with
    | nil => rfl
    | cons hd tl ih =>
      have hhd := h hd (List.mem_cons_self hd tl)
      have htl : ∀ u ∈ tl, is_bearer_value u = false :=
        fun u hu => h u (List.mem_cons_of_mem hd hu)
      cases hd with
      | none => simpa [get_bearer_token] using ih htl
      | some v =>
        have hb : strStartsWith v "Bearer " = false := by
          simpa [is_bearer_value] using hhd
        simp [get_bearer_token, hb, ih htl]
  · intro vs₁ vs₂ v h hv
    induction vs₁ with
    | nil =>
      have hne : v ≠ "" := by
        intro he
        rw [he, empty_not_bearer] at hv
        exact Bool.false_ne_true hv
      have hrm : removeLeading v "Bearer " = strDrop v 7 := by
        unfold removeLeading
        rw [hv, bearer_marker_length]
        simp
      simp [get_bearer_token, hne, hv, hrm]
    | cons hd tl ih =>
      have hhd := h hd (List.mem_cons_self hd tl)
      have htl : ∀ u ∈ tl, is_bearer_value u = false :=
        fun u hu => h u (List.mem_cons_of_mem hd hu)
      cases hd with
      | none => simpa [get_bearer_token] using ih htl
      | some w =>
        have hb : strStartsWith w "Bearer " = false := by
          simpa [is_bearer_value] using hhd
        simp [get_bearer_token, hb, ih htl]

/-- Witness for C9 at concrete header sequences: a Basic value and an absent
value are skipped before the first bearer value is taken, and a sequence of
non-bearer values yields none. -/
theorem bearer_token_extraction_spec_witness :
    (∀ u ∈ [some "Basic abc", none], is_bearer_value u = false) ∧
    strStartsWith "Bearer tok" "Bearer " = true ∧
    get_bearer_token
      ([some "Basic abc", none] ++ some "Bearer tok" :: [some "Bearer zzz"]) =
      some (strDrop "Bearer tok" 7) ∧
    (∀ u ∈ [some "Basic abc", some "bearer x", some ""],
      is_bearer_value u = false) ∧
    get_bearer_token [some "Basic abc", some "bearer x", some ""] = none :=
  ⟨by decide, by decide,
    bearer_token_extraction_spec.2 [some "Basic abc", none]
      [some "Bearer zzz"] "Bearer tok" (by decide) (by decide),
    by decide,
    bearer_token_extraction_spec.1 [some "Basic abc", some "bearer x", some ""]
      (by decide)⟩

/-- C10: a header value consisting of exactly the scheme marker with its
trailing space yields the empty token, which counts as present, whereas the
marker without the trailing space and the empty value both yield none. -/
theorem empty_bearer_token_counts_as_present :
    get_bearer_token [some "Bearer "] = some "" ∧
    get_bearer_token [some "Bearer"] = none ∧
    get_bearer_token [some ""] = none := by
  decide

/-- C8: the serialized session header has exactly the keys userId, name,
email, state and csrf, plus title exactly when a nonempty title is set and
expires exactly when an expiry callback is supplied; and the header value is
a function of these client-visible fields alone, so two sessions agreeing on
them, and on the supplied callback value, but differing in their TOTP secret
serialize to identical header strings. -/
theorem session_header_visible_fields_only :
    (∀ (s : Session) (e : Option (Session → Int)),
      (session_dict s e).map Prod.fst =
        ["userId", "name", "email", "state", "csrf"]
          ++ (match s.user_title with
              | some t => if t = "" then [] else ["title"]
              | none => [])
          ++ (match e with
              | some _ => ["expires"]
              | none => [])) ∧
    (∀ (s₁ s₂ : Session) (e : Option (Session → Int)),
      s₁.user_id = s₂.user_id →
      s₁.user_name = s₂.user_name →
      s₁.user_email = s₂.user_email →
      s₁.state = s₂.state →
      s₁.csrf_token = s₂.csrf_token →
      s₁.user_title = s₂.user_title →
      (∀ f, e = some f → f s₁ = f s₂) →
      session_to_header s₁ e = session_to_header s₂ e) := by
  constructor
  · intro s e
    cases ht : s.user_title with
    | none => cases e <;> simp [session_dict, ht]
    | some t =>
      by_cases hte : t = "" <;> cases e <;> simp [session_dict, ht, hte]
  · intro s₁ s₂ e h1 h2 h3 h4 h5 h6 h7
    cases e with
    | none =>
      simp only [session_to_header, session_dict, h1, h2, h3, h4, h5, h6]
    | some f =>
      simp only [session_to_header, session_dict, h1, h2, h3, h4, h5, h6,
        h7 f rfl]

/-- Witness for C8: two concrete sessions differing only in session id and
TOTP secret produce the same header string. -/
theorem session_header_visible_fields_only_witness :
    sampleSessionA.totp_token ≠ sampleSessionB.totp_token ∧
    session_to_header sampleSessionA none =
      session_to_header sampleSessionB none :=
  ⟨by decide,
    session_header_visible_fields_only.2 sampleSessionA sampleSessionB none
      rfl rfl rfl rfl rfl rfl (fun f hf => nomatch hf)⟩

/-- C1: for a valid bearer token resolving to a known registry user whose
stored name and email both equal the reported ones and whose status is
active, the minted claim set is exactly id, name, email, status, title, iat
and exp with status active and no role key when no role is granted, and a
role key with the granted role when one is granted; the issue timestamp is
now, the expiry is now plus the fixed validity window, so iat is at most now,
now is before exp, and exp minus iat is the window. -/
theorem known_active_user_token_claims :
    (∀ (cfg : ExchangeConfig) (idp : String → Option UserInfo)
        (reg : Registry) (auth xauth : Option String) (now : Nat)
        (t : String) (info : UserInfo) (user : User),
      get_bearer_token [auth, xauth] = some t →
      idp t = some info →
      lookup_user reg.users info.sub = some user →
      info.name = user.name →
      info.email = user.email →
      user.status = UserStatus.active →
      lookup_role reg.roles user.id = none →
      0 < cfg.validity →
      (token_exchange cfg idp reg auth xauth now).1 =
        Decision.exchanged
          [("id", JsonValue.str user.id),
           ("name", JsonValue.str info.name),
           ("email", JsonValue.str info.email),
           ("status", JsonValue.str "active"),
           ("title", match user.title with
             | some ti => JsonValue.str ti
             | none => JsonValue.null),
           ("iat", JsonValue.int now),
           ("exp", JsonValue.int (now + cfg.validity))] ∧
        now ≤ now ∧ now < now + cfg.validity ∧
        now + cfg.validity - now = cfg.validity) ∧
    (∀ (cfg : ExchangeConfig) (idp : String → Option UserInfo)
        (reg : Registry) (auth xauth : Option String) (now : Nat)
        (t : String) (info : UserInfo) (user : User) (r : String),
      get_bearer_token [auth, xauth] = some t →
      idp t = some info →
      lookup_user reg.users info.sub = some user →
      info.name = user.name →
      info.email = user.email →
      user.status = UserStatus.active →
      lookup_role reg.roles user.id = some r →
      0 < cfg.validity →
      (token_exchange cfg idp reg auth xauth now).1 =
        Decision.exchanged
          [("id", JsonValue.str user.id),
           ("name", JsonValue.str info.name),
           ("email", JsonValue.str info.email),
           ("status", JsonValue.str "active"),
           ("title", match user.title with
             | some ti => JsonValue.str ti
             | none => JsonValue.null),
           ("role", JsonValue.str r),
           ("iat", JsonValue.int now),
           ("exp", JsonValue.int (now + cfg.validity))] ∧
        now ≤ now ∧ now < now + cfg.validity ∧
        now + cfg.validity - now = cfg.validity) := by
  constructor
  · intro cfg idp reg auth xauth now t info user hb hi hl hn he hs hr hv
    refine ⟨?_, Nat.le_refl now, Nat.lt_add_of_pos_right hv,
      Nat.add_sub_cancel_left now cfg.validity⟩
    simp only [token_exchange, hb, hi, hl, mint_registered, hr,
      if_pos (And.intro hn he), hs, UserStatus.value]
    rfl
  · intro cfg idp reg auth xauth now t info user r hb hi hl hn he hs hr hv
    refine ⟨?_, Nat.le_refl now, Nat.lt_add_of_pos_right hv,
      Nat.add_sub_cancel_left now cfg.validity⟩
    simp only [token_exchange, hb, hi, hl, mint_registered, hr,
      if_pos (And.intro hn he), hs, UserStatus.value]
    rfl

/-- Witness for C1 at the sample user without a role and at the sample data
steward with the granted role. -/
theorem known_active_user_token_claims_witness :
    get_bearer_token [some "Bearer valid-token", none] = some "valid-token" ∧
    sampleIdp "valid-token" = some johnInfo ∧
    lookup_user sampleRegistry.users johnInfo.sub = some johnUser ∧
    lookup_role sampleRegistry.roles johnUser.id = none ∧
    ((token_exchange sampleCfg sampleIdp sampleRegistry
        (some "Bearer valid-token") none 1000).1 =
      Decision.exchanged
        [("id", JsonValue.str "john-internal-id"),
         ("name", JsonValue.str "John Doe"),
         ("email", JsonValue.str "john@home.org"),
         ("status", JsonValue.str "active"),
         ("title", JsonValue.null),
         ("iat", JsonValue.int 1000),
         ("exp", JsonValue.int 4600)] ∧
      1000 ≤ 1000 ∧ 1000 < 1000 + sampleCfg.validity ∧
      1000 + sampleCfg.validity - 1000 = sampleCfg.validity) ∧
    lookup_role stewardRegistry.roles stewardUser.id = some "data_steward" ∧
    ((token_exchange sampleCfg sampleIdp stewardRegistry
        (some "Bearer valid-token") none 1000).1 =
      Decision.exchanged
        [("id", JsonValue.str "james@ghga.de"),
         ("name", JsonValue.str "John Doe"),
         ("email", JsonValue.str "john@home.org"),
         ("status", JsonValue.str "active"),
         ("title", JsonValue.str "Dr."),
         ("role", JsonValue.str "data_steward"),
         ("iat", JsonValue.int 1000),
         ("exp", JsonValue.int 4600)] ∧
      1000 ≤ 1000 ∧ 1000 < 1000 + sampleCfg.validity ∧
      1000 + sampleCfg.validity - 1000 = sampleCfg.validity) :=
  ⟨by decide, by decide, by decide, by decide,
    known_active_user_token_claims.1 sampleCfg sampleIdp sampleRegistry
      (some "Bearer valid-token") none 1000 "valid-token" johnInfo johnUser
      (by decide) (by decide) (by decide) rfl rfl rfl (by decide) (by decide),
    by decide,
    known_active_user_token_claims.2 sampleCfg sampleIdp stewardRegistry
      (some "Bearer valid-token") none 1000 "valid-token" johnInfo stewardUser
      "data_steward" (by decide) (by decide) (by decide) rfl rfl rfl
      (by decide) (by decide)⟩

/-- C2: for a valid bearer token whose subject is found in the registry but
whose reported name or email differs from the stored record, the minted
token carries the reported name and email and its status claim is the
invalid sentinel, with no constraint on the stored status. -/
theorem mismatch_mints_invalid_status :
    ∀ (cfg : ExchangeConfig) (idp : String → Option UserInfo)
        (reg : Registry) (auth xauth : Option String) (now : Nat)
        (t : String) (info : UserInfo) (user : User),
      get_bearer_token [auth, xauth] = some t →
      idp t = some info →
      lookup_user reg.users info.sub = some user →
      ¬(info.name = user.name ∧ info.email = user.email) →
      (token_exchange cfg idp reg auth xauth now).1 =
        Decision.exchanged
          (mint_registered user info (lookup_role reg.roles user.id) now
            cfg.validity) ∧
      claim_value
          (mint_registered user info (lookup_role reg.roles user.id) now
            cfg.validity) "name" = some (JsonValue.str info.name) ∧
      claim_value
          (mint_registered user info (lookup_role reg.roles user.id) now
            cfg.validity) "email" = some (JsonValue.str info.email) ∧
      claim_value
          (mint_registered user info (lookup_role reg.roles user.id) now
            cfg.validity) "status" = some (JsonValue.str "invalid") := by
  intro cfg idp reg auth xauth now t info user hb hi hl hmis
  refine ⟨?_, rfl, rfl, ?_⟩
  · simp only [token_exchange, hb, hi, hl]
  · show some (JsonValue.str
      (if info.name = user.name ∧ info.email = user.email
       then user.status.value else "invalid")) =
      some (JsonValue.str "invalid")
    rw [if_neg hmis]

/-- Witness for C2 at a registry record whose stored name differs from the
reported one. -/
theorem mismatch_mints_invalid_status_witness :
    lookup_user stewardRegistry.users johnInfo.sub = some stewardUser ∧
    ¬((UserInfo.mk "john@aai.org" "John Foo" "john@home.org").name =
        stewardUser.name ∧
      (UserInfo.mk "john@aai.org" "John Foo" "john@home.org").email =
        stewardUser.email) ∧
    ((token_exchange sampleCfg
        (fun _ => some (UserInfo.mk "john@aai.org" "John Foo" "john@home.org"))
        stewardRegistry (some "Bearer any") none 1000).1 =
      Decision.exchanged
        (mint_registered stewardUser
          (UserInfo.mk "john@aai.org" "John Foo" "john@home.org")
          (lookup_role stewardRegistry.roles stewardUser.id) 1000
          sampleCfg.validity) ∧
      claim_value
        (mint_registered stewardUser
          (UserInfo.mk "john@aai.org" "John Foo" "john@home.org")
          (lookup_role stewardRegistry.roles stewardUser.id) 1000
          sampleCfg.validity) "name" = some (JsonValue.str "John Foo") ∧
      claim_value
        (mint_registered stewardUser
          (UserInfo.mk "john@aai.org" "John Foo" "john@home.org")
          (lookup_role stewardRegistry.roles stewardUser.id) 1000
          sampleCfg.validity) "email" = some (JsonValue.str "john@home.org") ∧
      claim_value
        (mint_registered stewardUser
          (UserInfo.mk "john@aai.org" "John Foo" "john@home.org")
          (lookup_role stewardRegistry.roles stewardUser.id) 1000
          sampleCfg.validity) "status" = some (JsonValue.str "invalid")) :=
  ⟨by decide, by decide,
    mismatch_mints_invalid_status sampleCfg
      (fun _ => some (UserInfo.mk "john@aai.org" "John Foo" "john@home.org"))
      stewardRegistry (some "Bearer any") none 1000 "any"
      (UserInfo.mk "john@aai.org" "John Foo" "john@home.org") stewardUser
      (by decide) rfl (by decide) (by decide)⟩

/-- C3: an exchange with a name or email mismatch leaves the registry
unchanged; in particular the record found for the subject has the same name,
email, status and status_change afterwards. -/
theorem mismatch_leaves_registry_unchanged :
    ∀ (cfg : ExchangeConfig) (idp : String → Option UserInfo)
        (reg : Registry) (auth xauth : Option String) (now : Nat)
        (t : String) (info : UserInfo) (user : User),
      get_bearer_token [auth, xauth] = some t →
      idp t = some info →
      lookup_user reg.users info.sub = some user →
      ¬(info.name = user.name ∧ info.email = user.email) →
      (token_exchange cfg idp reg auth xauth now).2 = reg ∧
      lookup_user (token_exchange cfg idp reg auth xauth now).2.users
        info.sub = some user := by
  intro cfg idp reg auth xauth now t info user hb hi hl hmis
  have h2 : (token_exchange cfg idp reg auth xauth now).2 = reg := by
    simp only [token_exchange, hb, hi, hl]
  exact ⟨h2, by rw [h2, hl]⟩

/-- Witness for C3 at the mismatching sample input: the registry after the
exchange is the one before it and still holds the unchanged record. -/
theorem mismatch_leaves_registry_unchanged_witness :
    lookup_user stewardRegistry.users johnInfo.sub = some stewardUser ∧
    (token_exchange sampleCfg
        (fun _ => some (UserInfo.mk "john@aai.org" "John Foo" "john@home.org"))
        stewardRegistry (some "Bearer any") none 1000).2 = stewardRegistry ∧
    lookup_user (token_exchange sampleCfg
        (fun _ => some (UserInfo.mk "john@aai.org" "John Foo" "john@home.org"))
        stewardRegistry (some "Bearer any") none 1000).2.users
      "john@aai.org" = some stewardUser :=
  ⟨by decide,
    (mismatch_leaves_registry_unchanged sampleCfg
      (fun _ => some (UserInfo.mk "john@aai.org" "John Foo" "john@home.org"))
      stewardRegistry (some "Bearer any") none 1000 "any"
      (UserInfo.mk "john@aai.org" "John Foo" "john@home.org") stewardUser
      (by decide) rfl (by decide) (by decide)).1,
    (mismatch_leaves_registry_unchanged sampleCfg
      (fun _ => some (UserInfo.mk "john@aai.org" "John Foo" "john@home.org"))
      stewardRegistry (some "Bearer any") none 1000 "any"
      (UserInfo.mk "john@aai.org" "John Foo" "john@home.org") stewardUser
      (by decide) rfl (by decide) (by decide)).2⟩

/-- C4: for a valid bearer token whose subject has no registry match, the
minted claim set is exactly ext_id, name, email, iat and exp with the values
taken from the identity provider response. -/
theorem unknown_user_gets_unregistered_token :
    ∀ (cfg : ExchangeConfig) (idp : String → Option UserInfo)
        (reg : Registry) (auth xauth : Option String) (now : Nat)
        (t : String) (info : UserInfo),
      get_bearer_token [auth, xauth] = some t →
      idp t = some info →
      lookup_user reg.users info.sub = none →
      (token_exchange cfg idp reg auth xauth now).1 =
        Decision.exchanged
          [("ext_id", JsonValue.str info.sub),
           ("name", JsonValue.str info.name),
           ("email", JsonValue.str info.email),
           ("iat", JsonValue.int now),
           ("exp", JsonValue.int (now + cfg.validity))] := by
  intro cfg idp reg auth xauth now t info hb hi hl
  simp only [token_exchange, hb, hi, hl, mint_unregistered]

/-- Witness for C4: the scenario of the spec, where the subject is unknown
to the registry. -/
theorem unknown_user_gets_unregistered_token_witness :
    get_bearer_token [some "Bearer valid-token", none] = some "valid-token" ∧
    sampleIdp "valid-token" = some johnInfo ∧
    lookup_user (Registry.mk [] []).users johnInfo.sub = none ∧
    (token_exchange sampleCfg sampleIdp (Registry.mk [] [])
        (some "Bearer valid-token") none 1000).1 =
      Decision.exchanged
        [("ext_id", JsonValue.str "john@aai.org"),
         ("name", JsonValue.str "John Doe"),
         ("email", JsonValue.str "john@home.org"),
         ("iat", JsonValue.int 1000),
         ("exp", JsonValue.int 4600)] :=
  ⟨by decide, by decide, by decide,
    unknown_user_gets_unregistered_token sampleCfg sampleIdp
      (Registry.mk [] []) (some "Bearer valid-token") none 1000 "valid-token"
      johnInfo (by decide) (by decide) (by decide)⟩

/-- C5: a request without a bearer token passes through with the outbound
Authorization header set to the empty string and no X-Authorization header
forwarded; an empty header, a non-bearer scheme and the bare scheme word
without its trailing space all count as no bearer token. -/
theorem no_bearer_token_passes_through_empty :
    (∀ (cfg : ExchangeConfig) (idp : String → Option UserInfo)
        (reg : Registry) (auth xauth : Option String) (now : Nat),
      get_bearer_token [auth, xauth] = none →
      (token_exchange cfg idp reg auth xauth now).1 = Decision.passThrough ∧
      decision_headers (token_exchange cfg idp reg auth xauth now).1 =
        ⟨200, none, some "", none⟩) ∧
    get_bearer_token [some "", none] = none ∧
    get_bearer_token [some "Basic abc", none] = none ∧
    get_bearer_token [some "Bearer", none] = none := by
  refine ⟨?_, by decide, by decide, by decide⟩
  intro cfg idp reg auth xauth now hb
  have h1 : (token_exchange cfg idp reg auth xauth now).1 =
      Decision.passThrough := by
    simp only [token_exchange, hb]
  exact ⟨h1, by rw [h1]; rfl⟩

/-- Witness for C5 at a request carrying a non-bearer scheme value. -/
theorem no_bearer_token_passes_through_empty_witness :
    get_bearer_token [some "Foo bar", none] = none ∧
    (token_exchange sampleCfg sampleIdp sampleRegistry (some "Foo bar") none
        1000).1 = Decision.passThrough ∧
    decision_headers (token_exchange sampleCfg sampleIdp sampleRegistry
        (some "Foo bar") none 1000).1 = ⟨200, none, some "", none⟩ :=
  ⟨by decide,
    (no_bearer_token_passes_through_empty.1 sampleCfg sampleIdp sampleRegistry
      (some "Foo bar") none 1000 (by decide)).1,
    (no_bearer_token_passes_through_empty.1 sampleCfg sampleIdp sampleRegistry
      (some "Foo bar") none 1000 (by decide)).2⟩

/-- C7: a bearer token that the identity provider fails to verify yields a
401 rejection with the fixed generic detail message, independent of the
token, and neither an Authorization nor an X-Authorization header is
forwarded. -/
theorem invalid_access_token_rejected :
    ∀ (cfg : ExchangeConfig) (idp : String → Option UserInfo)
        (reg : Registry) (auth xauth : Option String) (now : Nat)
        (t : String),
      get_bearer_token [auth, xauth] = some t →
      idp t = none →
      (token_exchange cfg idp reg auth xauth now).1 =
        Decision.reject "Invalid access token" ∧
      decision_headers (token_exchange cfg idp reg auth xauth now).1 =
        ⟨401, some "Invalid access token", none, none⟩ := by
  intro cfg idp reg auth xauth now t hb hi
  have h1 : (token_exchange cfg idp reg auth xauth now).1 =
      Decision.reject "Invalid access token" := by
    simp only [token_exchange, hb, hi]
  exact ⟨h1, by rw [h1]; rfl⟩

/-- Witness for C7 at a concrete rejected token. -/
theorem invalid_access_token_rejected_witness :
    get_bearer_token [some "Bearer invalid", none] = some "invalid" ∧
    sampleIdp "invalid" = none ∧
    (token_exchange sampleCfg sampleIdp sampleRegistry
        (some "Bearer invalid") none 1000).1 =
      Decision.reject "Invalid access token" ∧
    decision_headers (token_exchange sampleCfg sampleIdp sampleRegistry
        (some "Bearer invalid") none 1000).1 =
      ⟨401, some "Invalid access token", none, none⟩ :=
  ⟨by decide, by decide,
    (invalid_access_token_rejected sampleCfg sampleIdp sampleRegistry
      (some "Bearer invalid") none 1000 "invalid" (by decide) (by decide)).1,
    (invalid_access_token_rejected sampleCfg sampleIdp sampleRegistry
      (some "Bearer invalid") none 1000 "invalid" (by decide) (by decide)).2⟩

/-- C6: with Basic-Auth enforcement enabled, write-allow-listed paths admit
every method and read-allow-listed paths admit the read-only methods, in both
cases passing the client Authorization header through verbatim, while every
other path and method combination that does not carry the valid Basic
credential is rejected with a 401 carrying the Basic challenge with the
fixed realm. -/
theorem basic_auth_gate_spec :
    (∀ (cfg : GateConfig) (method : Method) (path : String)
        (auth : Option String) (creds : String),
      cfg.basic_auth_credentials = some creds →
      path_in_list cfg.allow_write_paths path = true →
      access_gate cfg method path auth = GateDecision.allow auth) ∧
    (∀ (cfg : GateConfig) (method : Method) (path : String)
        (auth : Option String) (creds : String),
      cfg.basic_auth_credentials = some creds →
      path_in_list cfg.allow_read_paths path = true →
      method.is_safe = true →
      access_gate cfg method path auth = GateDecision.allow auth) ∧
    (∀ (cfg : GateConfig) (method : Method) (path : String)
        (auth : Option String) (creds : String),
      cfg.basic_auth_credentials = some creds →
      path_in_list cfg.allow_write_paths path = false →
      (path_in_list cfg.allow_read_paths path && method.is_safe) = false →
      valid_basic_credential creds auth = false →
      ∃ detail, access_gate cfg method path auth =
        GateDecision.reject detail (basic_challenge cfg.realm)) := by
  refine ⟨?_, ?_, ?_⟩
  · intro cfg method path auth creds hc hw
    simp only [access_gate, hc, hw, if_true]
  · intro cfg method path auth creds hc hr hs
    cases hw : path_in_list cfg.allow_write_paths path <;>
      simp only [access_gate, hc, hw, hr, hs, Bool.false_eq_true, if_false,
        Bool.true_and, if_true]
  · intro cfg method path auth creds hc hw hrs hv
    simp only [access_gate, hc, hw, hrs, Bool.false_eq_true, if_false]
    cases auth with
    | none => exact ⟨cfg.realm ++ ": Not authenticated", rfl⟩
    | some value =>
      cases hb : strStartsWith value "Basic " with
      | false =>
        simp only [hb, Bool.false_eq_true, if_false]
        exact ⟨cfg.realm ++ ": Not authenticated", rfl⟩
      | true =>
        simp only [hb, if_true, hv, Bool.false_eq_true, if_false]
        exact ⟨cfg.realm ++ ": Incorrect username or password", rfl⟩

/-- Witness for C6 at the configuration of the integration tests: a POST to
a write-allow-listed path and a GET to a read-allow-listed path pass the
client header through verbatim without credentials, and a POST to a path on
no allow-list with a bearer header is rejected with the fixed-realm
challenge. -/
theorem basic_auth_gate_spec_witness :
    sampleGateCfg.basic_auth_credentials = some "testuser:testpwd" ∧
    path_in_list sampleGateCfg.allow_write_paths
      "/allowed/write/some/thing" = true ∧
    access_gate sampleGateCfg Method.post "/allowed/write/some/thing"
      (some "Bearer bar") = GateDecision.allow (some "Bearer bar") ∧
    path_in_list sampleGateCfg.allow_read_paths
      "/allowed/read/some/thing" = true ∧
    access_gate sampleGateCfg Method.get "/allowed/read/some/thing"
      (some "Bearer foo") = GateDecision.allow (some "Bearer foo") ∧
    path_in_list sampleGateCfg.allow_write_paths
      "/not-allowed/some/thing" = false ∧
    valid_basic_credential "testuser:testpwd" (some "Bearer bar") = false ∧
    (∃ detail, access_gate sampleGateCfg Method.post "/not-allowed/some/thing"
        (some "Bearer bar") =
      GateDecision.reject detail (basic_challenge sampleGateCfg.realm)) :=
  ⟨rfl, by decide,
    basic_auth_gate_spec.1 sampleGateCfg Method.post
      "/allowed/write/some/thing" (some "Bearer bar") "testuser:testpwd" rfl
      (by decide),
    by decide,
    basic_auth_gate_spec.2.1 sampleGateCfg Method.get
      "/allowed/read/some/thing" (some "Bearer foo") "testuser:testpwd" rfl
      (by decide) rfl,
    by decide, by decide,
    basic_auth_gate_spec.2.2 sampleGateCfg Method.post
      "/not-allowed/some/thing" (some "Bearer bar") "testuser:testpwd" rfl
      (by decide) (by decide) (by decide)⟩

end AuthAdapter
